import Mathlib

/-!
Verification development for the Bravebird two-agent document acquisition
system (`agent_a.py`, `agent_b.py`, `main.py`).

The Python sources are shallowly embedded: pure fragments become Lean
functions over `String` / `List` / `Nat`; effectful fragments (browser
interaction, oracle transport, the file system) become functions over
explicit environment records that carry the outcome of each external call,
mirroring the branch structure of the source line by line.  Python string
operations (`strip`, `split`, `lower`, slicing, `endswith`) are modelled by
the `py*` helpers below.
-/

namespace Bravebird

/-! ### Python string primitives -/

/-- Python `str.isspace` characters (the ASCII ones: space, tab, newline,
carriage return, vertical tab, form feed). -/
def pyIsSpace (c : Char) : Bool :=
  c = ' ' || c = '\t' || c = '\n' || c = '\r' || c = '\x0b' || c = '\x0c'

/-- Python `str.lower()` (character-wise lowering, as for the ASCII names
involved here). -/
def pyLower (s : String) : String := ⟨s.data.map Char.toLower⟩

/-- Python `str.endswith(suffix)`. -/
def pyEndsWith (s suffix : String) : Bool := decide (suffix.data <:+ s.data)

/-- Python `str.strip()`: remove leading and trailing whitespace. -/
def pyStrip (s : String) : String :=
  ⟨(((s.data.dropWhile pyIsSpace).reverse.dropWhile pyIsSpace).reverse)⟩

/-- Python `str.split()` with no arguments, on the character list: split on
whitespace runs, dropping empty pieces.  The fuel argument (initially the
list length, always sufficient because each step consumes at least one
character) keeps the recursion structural. -/
def pySplitWsAux : Nat → List Char → List String
  | _, [] => []
  | 0, _ :: _ => []
  | fuel + 1, c :: cs =>
    if pyIsSpace c then pySplitWsAux fuel cs
    else
      ⟨(c :: cs).takeWhile (fun d => !pyIsSpace d)⟩ ::
        pySplitWsAux fuel ((c :: cs).dropWhile (fun d => !pyIsSpace d))

/-- Python `str.split()` with no arguments. -/
def pySplitWs (s : String) : List String := pySplitWsAux s.data.length s.data

/-- `" ".flatten(words)`, on character lists. -/
def joinWithSpace : List String → List Char
  | [] => []
  | [w] => w.data
  | w :: ws => w.data ++ ' ' :: joinWithSpace ws

/-- Python `" ".flatten(s.split())`: collapse internal whitespace runs to a
single space and drop leading/trailing whitespace. -/
def pyCollapseWs (s : String) : String := ⟨joinWithSpace (pySplitWs s)⟩

/-- Python slicing `s[:n]` on a `str` (first `n` characters). -/
def pySlice (s : String) (n : Nat) : String := ⟨s.data.take n⟩

/-! ### Download Result file-name normalisation (`agent_a.py` 380-383)

```python
suggested = download.suggested_filename or "downloaded_doc.pdf"
if not suggested.lower().endswith(".pdf"):
    suggested = suggested + ".pdf"
```

`suggested_filename` may be `None` or empty (both falsy), hence the
`Option String` input. -/

def fixSuggestedName (suggestedFilename : Option String) : String :=
  let suggested :=
    match suggestedFilename with
    | none => "downloaded_doc.pdf"
    | some s => if s = "" then "downloaded_doc.pdf" else s
  if pyEndsWith (pyLower suggested) ".pdf" then suggested else suggested ++ ".pdf"

/-! ### JSON values

Values produced by Python's `json.loads`; `json.loads` itself is standard
library code (external to the repository), so the adapter embedding below
receives its outcome (`Option Json`, `none` modelling a raised
deserialization error) through an environment function. -/

inductive Json where
  | null : Json
  | bool (b : Bool) : Json
  | num (n : Int) : Json
  | str (s : String) : Json
  | arr (elems : List Json) : Json
  | obj (fields : List (String × Json)) : Json

/-- Python `dict.get` on an object decoded by `json.loads` (a duplicated key
keeps its last value, hence the reversed lookup). -/
def pyDictGet (fields : List (String × Json)) (k : String) : Option Json :=
  fields.reverse.lookup k

/-! ### Planner Oracle Adapter (`agent_a.py` 126-182) -/

/-- `allowed_actions` (`agent_a.py` 137-143). -/
def allowed_actions : List String :=
  ["CLICK_DOWNLOAD_ANYWAY",
   "CLICK_DOWNLOAD_BUTTON",
   "OPEN_OVERFLOW_MENU_AND_DOWNLOAD",
   "REFRESH_AND_RETRY_SELECTORS",
   "FAIL_GIVE_UP"]

/-- The fallback dict literal returned at `agent_a.py` 179 and 182. -/
def fallbackPlan (rationale : String) : Json :=
  .obj [("action", .str "REFRESH_AND_RETRY_SELECTORS"), ("rationale", .str rationale)]

/-- Environment of one `_call_gpt5_mini_plan` call: each field carries the
outcome of one external interaction (`Except` errors model raised
exceptions). -/
structure OracleEnv where
  /-- `client.responses.create(...).output_text` (`agent_a.py` 157-164). -/
  primary : Except String String
  /-- `client.chat.completions.create(...).choices[0].message.content`
  (`agent_a.py` 166-174), consulted only when `primary` raised. -/
  secondary : Except String String
  /-- `json.loads` applied to the stripped response text; `none` models a
  raised deserialization error (`agent_a.py` 177). -/
  loads : String → Option Json

/-- `agent_a.py` 155-174: obtain the response text, preferring the Responses
API and falling back to chat completions; an exception from the fallback
channel propagates. -/
def obtainedText (env : OracleEnv) : Except String String :=
  match env.primary with
  | .ok t => .ok (pyStrip t)
  | .error _ =>
    match env.secondary with
    | .ok t => .ok (pyStrip t)
    | .error e => .error e

/-- `agent_a.py` 176-182: decode the response text.  A non-object decode
result makes `plan.get` raise `AttributeError`, caught by the same
`except` as a decode failure. -/
def decodePlanText (env : OracleEnv) (text : String) : Json :=
  match env.loads text with
  | none => fallbackPlan "Non-JSON output; fallback."
  | some plan =>
    match plan with
    | .obj fields =>
      match pyDictGet fields "action" with
      | some (.str a) =>
        if a ∈ allowed_actions then plan
        else fallbackPlan "Invalid action from model; fallback."
      | _ => fallbackPlan "Invalid action from model; fallback."
    | _ => fallbackPlan "Non-JSON output; fallback."

/-- `_call_gpt5_mini_plan` (`agent_a.py` 126-182). -/
def call_gpt5_mini_plan (env : OracleEnv) : Except String Json :=
  match obtainedText env with
  | .ok text => .ok (decodePlanText env text)
  | .error e => .error e

/-- The check `plan.get("action") in allowed_actions` succeeds on a decoded
object. -/
def planActionOk (j : Json) : Bool :=
  match j with
  | .obj fields =>
    match pyDictGet fields "action" with
    | some (.str a) => decide (a ∈ allowed_actions)
    | _ => false
  | _ => false

/-- An oracle contract violation: the text fails to decode, or the decoded
value's `action` is not an allowed-action string. -/
def oracleViolation (o : Option Json) : Bool :=
  match o with
  | none => true
  | some j => !planActionOk j

/-! ### Page State Extractor (`agent_a.py` 79-123) -/

/-- One element matched by the candidate locator, as seen by the scan loop
(`agent_a.py` 104-117).  `innerText` and `ariaLabel` already include the
`or ""` coercion of a `None` result; `raisesError` models any of the
per-element awaits raising (swallowed by `continue`). -/
structure PageElement where
  visible : Bool
  innerText : String
  ariaLabel : String
  raisesError : Bool

/-- The label contributed by one scanned element, if any
(`agent_a.py` 106-117). -/
def elementLabel (el : PageElement) : Option String :=
  if el.raisesError then none
  else if !el.visible then none
  else
    let txt := pyStrip el.innerText
    let aria := pyStrip el.ariaLabel
    let cand := if aria ≠ "" then aria else txt
    if cand ≠ "" then some (pySlice (pyCollapseWs cand) 80) else none

/-- Labels appended to `button_texts` by the scan loop: the first
`min(count, 40)` elements, each contributing at most one label
(`agent_a.py` 103-117). -/
def qualifyingLabels (elements : List PageElement) : List String :=
  (elements.take 40).filterMap elementLabel

/-- Python `list(dict.fromkeys(l))` with the set of already-seen keys made
explicit: keep each element's first occurrence, in first-seen order. -/
def dedupFirstSeenAux (seen : List String) : List String → List String
  | [] => []
  | x :: xs =>
    if x ∈ seen then dedupFirstSeenAux seen xs
    else x :: dedupFirstSeenAux (x :: seen) xs

/-- Python `list(dict.fromkeys(l))`: deduplicate keeping first occurrences
in first-seen order. -/
def dedupFirstSeen (l : List String) : List String := dedupFirstSeenAux [] l

/-- `button_texts = list(dict.fromkeys(button_texts))[:25]`
(`agent_a.py` 119). -/
def collectButtonTexts (elements : List PageElement) : List String :=
  (dedupFirstSeen (qualifyingLabels elements)).take 25

/-! ### Retry/Backoff Controller (`agent_a.py` 271-276)

The decorator
`@retry(stop=stop_after_attempt(3), wait=wait_exponential(multiplier=1, min=2, max=10), reraise=True)`
is the tenacity library's retry envelope: run attempt 1; after a failed
attempt `n`, stop (re-raising the attempt's own exception, because of
`reraise=True`) once `n` reaches 3, otherwise sleep
`wait_exponential(...)(n)` seconds and run attempt `n + 1`. -/

/-- tenacity `wait_exponential(multiplier, min, max)` evaluated after attempt
number `n`: `max(max(0, min), min(multiplier * 2 ** n, max))`. -/
def waitExponential (multiplier minW maxW n : Nat) : Nat :=
  max (max 0 minW) (min (multiplier * 2 ^ n) maxW)

/-- The retry loop: `f n` is the outcome of attempt number `n`; `fuel` is the
number of further attempts the stop condition still allows.  Returns the
final outcome, the number of the last attempt run, and the list of backoff
waits slept between attempts. -/
def runWithRetries {E A : Type} (f : Nat → Except E A) :
    Nat → Nat → Except E A × Nat × List Nat
  | fuel, n =>
    match f n, fuel with
    | .ok a, _ => (.ok a, n, [])
    | .error e, 0 => (.error e, n, [])
    | .error _, fuel + 1 =>
      let rest := runWithRetries f fuel (n + 1)
      (rest.1, rest.2.1, waitExponential 1 2 10 n :: rest.2.2)

/-- The configured envelope on `DownloadAgent.run`: first attempt is number
1, `stop_after_attempt(3)` allows 2 further attempts. -/
def retryEnvelope {E A : Type} (f : Nat → Except E A) : Except E A × Nat × List Nat :=
  runWithRetries f 2 1

/-! ### SHA-256 (`agent_a.py` 60-65)

```python
def _sha256_file(path: str) -> str:
    h = hashlib.sha256()
    with open(path, "rb") as f:
        for chunk in iter(lambda: f.read(1024 * 1024), b""):
            h.update(chunk)
    return h.hexdigest()
```

`hashlib.sha256` is the standard FIPS 180-4 incremental SHA-256: the
context keeps the eight 32-bit chaining words, the bytes not yet forming a
complete 64-byte block, and the total byte count; `update` absorbs complete
blocks through the compression function and buffers the remainder;
`hexdigest` pads and finishes.  Words are `Nat` reduced mod `2 ^ 32`;
bytes are `Nat` (values below 256). -/

def w32 : Nat := 2 ^ 32

/-- Bit `i` of `x`. -/
def natBit (x i : Nat) : Nat := x / 2 ^ i % 2

/-- Bitwise XOR on 32-bit words. -/
def xor32 (a b : Nat) : Nat :=
  (List.range 32).foldl (fun acc i => acc + (natBit a i + natBit b i) % 2 * 2 ^ i) 0

/-- Bitwise AND on 32-bit words. -/
def and32 (a b : Nat) : Nat :=
  (List.range 32).foldl (fun acc i => acc + natBit a i * natBit b i * 2 ^ i) 0

/-- Bitwise complement on 32-bit words. -/
def not32 (a : Nat) : Nat := (w32 - 1) - a % w32

/-- Rotate a 32-bit word right by `n`. -/
def rotr32 (x n : Nat) : Nat := (x / 2 ^ n + x % 2 ^ n * 2 ^ (32 - n)) % w32

/-- Logical right shift. -/
def shr32 (x n : Nat) : Nat := x / 2 ^ n

def shaCh (x y z : Nat) : Nat := xor32 (and32 x y) (and32 (not32 x) z)

def shaMaj (x y z : Nat) : Nat := xor32 (xor32 (and32 x y) (and32 x z)) (and32 y z)

def bsig0 (x : Nat) : Nat := xor32 (xor32 (rotr32 x 2) (rotr32 x 13)) (rotr32 x 22)

def bsig1 (x : Nat) : Nat := xor32 (xor32 (rotr32 x 6) (rotr32 x 11)) (rotr32 x 25)

def ssig0 (x : Nat) : Nat := xor32 (xor32 (rotr32 x 7) (rotr32 x 18)) (shr32 x 3)

def ssig1 (x : Nat) : Nat := xor32 (xor32 (rotr32 x 17) (rotr32 x 19)) (shr32 x 10)

/-- The SHA-256 round constants. -/
def shaK : List Nat :=
  [1116352408, 1899447441, 3049323471, 3921009573, 961987163,
   1508970993, 2453635748, 2870763221, 3624381080, 310598401,
   607225278, 1426881987, 1925078388, 2162078206, 2614888103,
   3248222580, 3835390401, 4022224774, 264347078, 604807628,
   770255983, 1249150122, 1555081692, 1996064986, 2554220882,
   2821834349, 2952996808, 3210313671, 3336571891, 3584528711,
   113926993, 338241895, 666307205, 773529912, 1294757372,
   1396182291, 1695183700, 1986661051, 2177026350, 2456956037,
   2730485921, 2820302411, 3259730800, 3345764771, 3516065817,
   3600352804, 4094571909, 275423344, 430227734, 506948616,
   659060556, 883997877, 958139571, 1322822218, 1537002063,
   1747873779, 1955562222, 2024104815, 2227730452, 2361852424,
   2428436474, 2756734187, 3204031479, 3329325298]

/-- The SHA-256 initial hash value. -/
def shaH0 : List Nat :=
  [1779033703, 3144134277, 1013904242, 2773480762, 1359893119,
   2600822924, 528734635, 1541459225]

/-- One step of the message-schedule extension. -/
def scheduleStep (ws : List Nat) : List Nat :=
  let n := ws.length
  ws ++ [(ssig1 (ws.getD (n - 2) 0) + ws.getD (n - 7) 0
          + ssig0 (ws.getD (n - 15) 0) + ws.getD (n - 16) 0) % w32]

def iterN {α : Type} (f : α → α) : Nat → α → α
  | 0, a => a
  | n + 1, a => iterN f n (f a)

/-- The 64-word message schedule of one block. -/
def msgSchedule (block : List Nat) : List Nat := iterN scheduleStep 48 block

/-- One SHA-256 round on the working variables `[a,b,c,d,e,f,g,h]`. -/
def shaRound (k w : Nat) (st : List Nat) : List Nat :=
  match st with
  | [a, b, c, d, e, f, g, h] =>
    let t1 := (h + bsig1 e + shaCh e f g + k + w) % w32
    let t2 := (bsig0 a + shaMaj a b c) % w32
    [(t1 + t2) % w32, a, b, c, (d + t1) % w32, e, f, g]
  | other => other

/-- The SHA-256 compression function on one 16-word block. -/
def compress (h : List Nat) (block : List Nat) : List Nat :=
  let st := (List.zip shaK (msgSchedule block)).foldl (fun st kw => shaRound kw.1 kw.2 st) h
  (List.zip h st).map (fun p => (p.1 + p.2) % w32)

/-- Big-endian bytes of `value`, `n` bytes wide. -/
def beBytes (n value : Nat) : List Nat :=
  (List.range n).reverse.map (fun i => value / 2 ^ (8 * i) % 256)

/-- Four big-endian bytes to one 32-bit word, over a 64-byte block. -/
def bytesToWords : List Nat → List Nat
  | b0 :: b1 :: b2 :: b3 :: rest =>
    (b0 % 256 * 2 ^ 24 + b1 % 256 * 2 ^ 16 + b2 % 256 * 2 ^ 8 + b3 % 256) :: bytesToWords rest
  | _ => []

/-- Absorb all complete 64-byte blocks; the fuel argument (initially the
data length, always sufficient because each step consumes 64 bytes) keeps
the recursion structural. -/
def processBlocksAux : Nat → List Nat → List Nat → List Nat × List Nat
  | 0, h, data => (h, data)
  | fuel + 1, h, data =>
    if 64 ≤ data.length then
      processBlocksAux fuel (compress h (bytesToWords (data.take 64))) (data.drop 64)
    else (h, data)

/-- Absorb all complete 64-byte blocks, returning the new chaining value and
the unabsorbed remainder (shorter than 64 bytes). -/
def processBlocks (h data : List Nat) : List Nat × List Nat :=
  processBlocksAux data.length h data

/-- The FIPS 180-4 padding appended after a message of `len` bytes: `0x80`,
zeros up to 56 mod 64, then the bit length as 8 big-endian bytes. -/
def padTail (len : Nat) : List Nat :=
  0x80 :: List.replicate ((64 + 56 - (len + 1) % 64) % 64) 0 ++ beBytes 8 (8 * len)

def padMessage (msg : List Nat) : List Nat := msg ++ padTail msg.length

def hexDigitChar (n : Nat) : Char :=
  if n % 16 < 10 then Char.ofNat (48 + n % 16) else Char.ofNat (87 + n % 16)

/-- Eight lowercase hex characters of one 32-bit word. -/
def wordHex (x : Nat) : String := ⟨(List.range 8).reverse.map (fun i => hexDigitChar (x / 16 ^ i % 16))⟩

/-- Reference one-shot SHA-256 hex digest of a byte string. -/
def sha256Hex (msg : List Nat) : String :=
  String.join (((processBlocks shaH0 (padMessage msg)).1).map wordHex)

/-- The incremental `hashlib.sha256` context: chaining value, buffered bytes
(fewer than 64), total bytes absorbed. -/
structure ShaCtx where
  h : List Nat
  buffer : List Nat
  totalLen : Nat

/-- `hashlib.sha256()`. -/
def shaInit : ShaCtx := ⟨shaH0, [], 0⟩

/-- `h.update(chunk)`. -/
def shaUpdate (ctx : ShaCtx) (chunk : List Nat) : ShaCtx :=
  let hr := processBlocks ctx.h (ctx.buffer ++ chunk)
  ⟨hr.1, hr.2, ctx.totalLen + chunk.length⟩

/-- `h.hexdigest()`. -/
def shaHexdigest (ctx : ShaCtx) : String :=
  String.join (((processBlocks ctx.h (ctx.buffer ++ padTail ctx.totalLen)).1).map wordHex)

/-- The digest obtained by feeding the chunks of `css` to one incremental
context. -/
def shaStream (css : List (List Nat)) : String :=
  shaHexdigest (css.foldl shaUpdate shaInit)

/-- Successive `n`-element chunks of a list: the sequence produced by
`iter(lambda: f.read(n), b"")`. -/
def chunkListAux {α : Type} (n : Nat) : Nat → List α → List (List α)
  | _, [] => []
  | 0, _ :: _ => []
  | fuel + 1, x :: xs =>
    if n = 0 then []
    else (x :: xs).take n :: chunkListAux n fuel ((x :: xs).drop n)

def chunkList {α : Type} (n : Nat) (l : List α) : List (List α) :=
  chunkListAux n l.length l

/-- `_sha256_file` (`agent_a.py` 60-65), as a function of the file's byte
contents: absorb successive 1 MiB chunks, then take the hex digest. -/
def sha256_file (contents : List Nat) : String :=
  shaStream (chunkList (1024 * 1024) contents)

/-! ### One attempt of `DownloadAgent.run` (`agent_a.py` 277-420)

One attempt is embedded as a function of an environment record carrying the
outcome of each external interaction, threading the state of the handoff
file.  Every `raise` in the source becomes an `Except.error` carrying the
exception message; the handoff file is only touched by the `json.dump` at
lines 407-408. -/

/-- `HandoffPayload` (`agent_a.py` 47-57). -/
structure HandoffPayload where
  status : String
  file_path : String
  file_name : String
  source_url : String
  sha256 : String
  bytes : Nat
  downloaded_at_iso : String
  notes : String
  extra : List (String × String)
deriving DecidableEq

/-- The state of `sandbox/handoff.json`: its content (if the file exists)
and how many times it has been written. -/
structure HandoffFS where
  content : Option HandoffPayload
  writes : Nat
deriving DecidableEq

/-- Outcomes of the external interactions of one attempt. -/
structure AttemptEnv where
  /-- `page.goto` succeeded (`agent_a.py` 307). -/
  gotoOk : Bool
  /-- The oracle transport/decoding environment of this attempt's
  `_call_gpt5_mini_plan` call (`agent_a.py` 312). -/
  oracle : OracleEnv
  /-- `_try_click_download_anyway` found and clicked the button
  (`agent_a.py` 189-198). -/
  anywayOk : Bool
  /-- `_try_click_download_button` returned a locator (`agent_a.py` 200-231). -/
  buttonFound : Bool
  /-- `page.reload` succeeded (`agent_a.py` 354). -/
  reloadOk : Bool
  /-- `_overflow_menu_download` returned `True` (`agent_a.py` 233-269). -/
  overflowOk : Bool
  /-- The `expect_download` wait resolved within its 60 s window. -/
  downloadFires : Bool
  /-- `download.suggested_filename` (`agent_a.py` 380); `none` models a
  falsy (absent or empty) suggestion. -/
  suggestedFilename : Option String
  /-- The byte contents of the saved file. -/
  contents : List Nat
  /-- `datetime.now(timezone.utc).isoformat()` (`agent_a.py` 399). -/
  timestamp : String
  /-- The working directory `os.path.abspath` resolves against. -/
  cwd : String

/-- `plan["action"]` on a decoded plan object. -/
def planActionOf (j : Json) : Option String :=
  match j with
  | .obj fields =>
    match pyDictGet fields "action" with
    | some (.str a) => some a
    | _ => none
  | _ => none

def DOWNLOADS_DIR : String := "sandbox/downloads"

/-- The action dispatch of one attempt (`agent_a.py` 316-378): each branch
either resolves a download or raises. -/
def executeAction (env : AttemptEnv) (plan : Json) : Except String Unit :=
  match planActionOf plan with
  | none => .error "KeyError: action"
  | some a =>
    if a = "CLICK_DOWNLOAD_ANYWAY" then
      if !env.anywayOk then .error "Planner chose CLICK_DOWNLOAD_ANYWAY but button not available."
      else if !env.downloadFires then .error "Timeout waiting for expect_download"
      else .ok ()
    else if a = "CLICK_DOWNLOAD_BUTTON" then
      if !env.buttonFound then .error "Planner chose CLICK_DOWNLOAD_BUTTON but no button found."
      else if !env.downloadFires then .error "Timeout waiting for expect_download"
      else .ok ()
    else if a = "OPEN_OVERFLOW_MENU_AND_DOWNLOAD" then
      if !env.overflowOk then .error "Overflow download failed."
      else if !env.downloadFires then .error "Timeout waiting for expect_download"
      else .ok ()
    else if a = "REFRESH_AND_RETRY_SELECTORS" then
      if !env.reloadOk then .error "page.reload failed"
      else if env.buttonFound then
        if !env.downloadFires then .error "Timeout waiting for expect_download" else .ok ()
      else if !env.overflowOk then .error "No download route found after refresh."
      else if !env.downloadFires then .error "Timeout waiting for expect_download"
      else .ok ()
    else .error "Planner chose FAIL_GIVE_UP."

/-- The `HandoffPayload` assembled at `agent_a.py` 380-405 on a resolved
download: extension-corrected name, absolute save path, streaming hash,
byte count, timestamp. -/
def attemptPayload (url : String) (env : AttemptEnv) : HandoffPayload :=
  let suggested := fixSuggestedName env.suggestedFilename
  { status := "success"
    file_path := env.cwd ++ "/" ++ DOWNLOADS_DIR ++ "/" ++ suggested
    file_name := suggested
    source_url := url
    sha256 := sha256_file env.contents
    bytes := env.contents.length
    downloaded_at_iso := env.timestamp
    notes := "Downloaded via Playwright browser flow (no Google Drive API). Planner used gpt-5-mini."
    extra := [("executor", "playwright-chromium"), ("reasoner", "gpt-5-mini")] }

/-- One attempt of `DownloadAgent.run` (`agent_a.py` 296-418): navigate,
plan, execute, then — only on a resolved download — normalise the file
name, hash the saved file, assemble the payload and write the handoff
file (`agent_a.py` 407-408).  Returns the attempt outcome and the
possibly-updated handoff state. -/
def runAttempt (url : String) (env : AttemptEnv) (fs : HandoffFS) :
    Except String HandoffPayload × HandoffFS :=
  if !env.gotoOk then (.error "page.goto failed", fs)
  else
    match call_gpt5_mini_plan env.oracle with
    | .error e => (.error e, fs)
    | .ok plan =>
      match executeAction env plan with
      | .error e => (.error e, fs)
      | .ok _ =>
        (.ok (attemptPayload url env),
         { content := some (attemptPayload url env), writes := fs.writes + 1 })

/-- `DownloadAgent.run` under its retry envelope, threading the handoff
state: `envs n` is the environment of attempt number `n`. -/
def runAgentAux (url : String) (envs : Nat → AttemptEnv) :
    Nat → Nat → HandoffFS → Except String HandoffPayload × HandoffFS
  | fuel, n, fs =>
    let step := runAttempt url (envs n) fs
    match step.1, fuel with
    | .ok p, _ => (.ok p, step.2)
    | .error e, 0 => (.error e, step.2)
    | .error _, fuel + 1 => runAgentAux url envs fuel (n + 1) step.2

/-- The whole retried run (first attempt is number 1; `stop_after_attempt(3)`
allows 2 further attempts). -/
def runAgent (url : String) (envs : Nat → AttemptEnv) (fs : HandoffFS) :
    Except String HandoffPayload × HandoffFS :=
  runAgentAux url envs 2 1 fs

/-! ### Time Guard (`agent_a.py` 296-304, 411)

```python
async def _time_guard():
    while True:
        if time.time() - start > max_seconds:
            raise TimeoutError("Agent A exceeded 10-minute limit (internal guard).")
        await asyncio.sleep(1)

guard_task = asyncio.create_task(_time_guard())
```

The guard coroutine polls once per second.  Under `asyncio`, an exception
raised inside a task created by `create_task` is stored in that task object
and re-raised only where the task is awaited; `guard_task` is never awaited
anywhere in `agent_a.py` — it is only cancelled on the success path (line
411) — so the model's delivery flag depends on a `guardAwaited` parameter
that is `false` for this source.  The attempt is a sequence of awaited
steps with durations in seconds; both tasks share one cooperative
scheduler, interleaved at one-second granularity. -/

structure GuardModelState where
  /-- The guard coroutine has raised `TimeoutError` (stored in its task). -/
  guardRaised : Bool
  /-- The stored exception was re-raised inside the attempt coroutine. -/
  mainPreempted : Bool
  /-- Remaining durations (seconds) of the attempt's awaited steps. -/
  mainRemaining : List Nat
deriving DecidableEq

/-- One second of progress of the attempt's awaited steps. -/
def consumeSecond : List Nat → List Nat
  | [] => []
  | 0 :: rest => consumeSecond rest
  | 1 :: rest => rest
  | (n + 2) :: rest => (n + 1) :: rest

/-- One second of the cooperative schedule at time `elapsed`: the guard
polls (`agent_a.py` 300-302); its stored exception reaches the attempt
only if the attempt awaits the guard task (`guardAwaited`); otherwise the
attempt's current awaited operation advances. -/
def guardTick (maxSeconds : Nat) (guardAwaited : Bool) (elapsed : Nat)
    (s : GuardModelState) : GuardModelState :=
  let raised := s.guardRaised || decide (elapsed > maxSeconds)
  if s.mainPreempted then { s with guardRaised := raised }
  else if raised && guardAwaited then
    { guardRaised := raised, mainPreempted := true, mainRemaining := s.mainRemaining }
  else
    { guardRaised := raised, mainPreempted := false, mainRemaining := consumeSecond s.mainRemaining }

def guardRunAux (maxSeconds : Nat) (guardAwaited : Bool) :
    Nat → Nat → GuardModelState → GuardModelState
  | 0, _, s => s
  | t + 1, elapsed, s =>
    guardRunAux maxSeconds guardAwaited t (elapsed + 1)
      (guardTick maxSeconds guardAwaited (elapsed + 1) s)

/-- Run the guard alongside an attempt whose awaited steps take `steps`
seconds, for the attempt's whole duration.  `guardAwaited := false` because
`agent_a.py` never awaits `guard_task`. -/
def timeGuardRun (maxSeconds : Nat) (steps : List Nat) : GuardModelState :=
  guardRunAux maxSeconds false steps.sum 0
    { guardRaised := false, mainPreempted := false, mainRemaining := steps }

/-! ### Downstream consumer validation (`agent_b.py` 50-65) -/

/-- Python truthiness of a decoded JSON value (`not file_path`). -/
def pyTruthy : Json → Bool
  | .null => false
  | .bool b => b
  | .num n => decide (n ≠ 0)
  | .str s => decide (s ≠ "")
  | .arr l => !l.isEmpty
  | .obj fields => !fields.isEmpty

/-- The errors `QueryAgent.load_handoff` can raise. -/
inductive LoadError where
  | fileNotFound (msg : String)
  | missingField (field : String)
  | invalidFilePath (msg : String)
deriving DecidableEq

/-- The required-field list of `agent_b.py` 57. -/
def requiredHandoffFields : List String :=
  ["file_path", "file_name", "source_url", "sha256", "bytes", "downloaded_at_iso"]

/-- The first required field absent from the record, if any — the loop at
`agent_b.py` 57-59 raises at the first one. -/
def findMissingField (data : List (String × Json)) : Option String :=
  requiredHandoffFields.find? (fun k => (pyDictGet data k).isNone)

/-- The file-system environment of a `load_handoff` call: existence of the
handoff file itself, and `os.path.exists` on the record's `file_path`
value (an external query, abstracted over arbitrary JSON values). -/
structure FsEnv where
  handoffFileExists : Bool
  pathExists : Json → Bool

/-- `QueryAgent.load_handoff` (`agent_b.py` 50-65) on the decoded record. -/
def load_handoff (env : FsEnv) (data : List (String × Json)) :
    Except LoadError (List (String × Json)) :=
  if !env.handoffFileExists then .error (.fileNotFound "handoff.json not found")
  else
    match findMissingField data with
    | some k => .error (.missingField k)
    | none =>
      let fp := (pyDictGet data "file_path").getD .null
      if !pyTruthy fp || !env.pathExists fp then
        .error (.invalidFilePath "Invalid file_path in handoff.json")
      else .ok data

/-! ### Phase-2 handoff consumption in the CLI flow (`main.py` 27-47) -/

inductive Phase2Result where
  | exitError (msg : String)
  | indexed (record : List (String × Json))

/-- The phase-2 environment: existence of the handoff file (`main.py` 31)
and its decoded content (`main.py` 34-35). -/
structure Phase2Env where
  handoffFileExists : Bool
  parsed : List (String × Json)

/-- `main.py` 30-47: check only that the handoff file exists, decode it, and
hand the record straight to `index_document_from_handoff` — whose first
touch of the record is `handoff["file_path"]` (`agent_b.py` 68).  Any
exception in the block exits with code 1. -/
def main_phase2 (env : Phase2Env) : Phase2Result :=
  if !env.handoffFileExists then
    .exitError "Expected handoff.json but not found"
  else
    match pyDictGet env.parsed "file_path" with
    | none => .exitError "KeyError: file_path"
    | some _ => .indexed env.parsed

/-! ### Concrete sample inputs used in witnesses and counterexamples -/

/-- An attempt environment whose oracle decodes to `CLICK_DOWNLOAD_BUTTON`
and whose browser interactions all succeed, with suggested name `"doc"`. -/
def sampleSuccessEnv : AttemptEnv :=
  { gotoOk := true
    oracle :=
      { primary := .ok "{}"
        secondary := .error "unused"
        loads := fun _ =>
          some (.obj [("action", .str "CLICK_DOWNLOAD_BUTTON"), ("rationale", .str "r")]) }
    anywayOk := false
    buttonFound := true
    reloadOk := true
    overflowOk := false
    downloadFires := true
    suggestedFilename := some "doc"
    contents := []
    timestamp := "2026-01-01T00:00:00+00:00"
    cwd := "/work" }

/-- Attempt environments whose oracle always selects `FAIL_GIVE_UP`. -/
def sampleGiveUpEnvs : Nat → AttemptEnv := fun _ =>
  { gotoOk := true
    oracle :=
      { primary := .ok "{}"
        secondary := .error "unused"
        loads := fun _ =>
          some (.obj [("action", .str "FAIL_GIVE_UP"), ("rationale", .str "r")]) }
    anywayOk := false
    buttonFound := false
    reloadOk := true
    overflowOk := false
    downloadFires := false
    suggestedFilename := none
    contents := []
    timestamp := "2026-01-01T00:00:00+00:00"
    cwd := "/work" }

/-- A handoff record missing only `sha256`. -/
def sampleRecordNoSha : List (String × Json) :=
  [("file_path", .str "/work/sandbox/downloads/doc.pdf"),
   ("file_name", .str "doc.pdf"),
   ("source_url", .str "https://drive.google.com/file"),
   ("bytes", .num 3),
   ("downloaded_at_iso", .str "2026-01-01T00:00:00+00:00")]

/-- A complete handoff record. -/
def sampleRecordFull : List (String × Json) :=
  [("file_path", .str "/work/sandbox/downloads/doc.pdf"),
   ("file_name", .str "doc.pdf"),
   ("source_url", .str "https://drive.google.com/file"),
   ("sha256", .str "ba7816bf8f01cfea414140de5dae2223b00361a396177a9cb410ff61f20015ad"),
   ("bytes", .num 3),
   ("downloaded_at_iso", .str "2026-01-01T00:00:00+00:00")]

/-- Twenty-six scanned elements all carrying the same visible label. -/
def sampleDupElements : List PageElement :=
  List.replicate 26 ⟨true, "Download", "", false⟩

/-- Twenty-six scanned elements with pairwise distinct visible labels. -/
def sampleDistinctElements : List PageElement :=
  ["A", "B", "C", "D", "E", "F", "G", "H", "I", "J", "K", "L", "M",
   "N", "O", "P", "Q", "R", "S", "T", "U", "V", "W", "X", "Y", "Z"].map
    (fun s => ⟨true, s, "", false⟩)

/-! ## Helper lemmas -/

theorem str_data_append (s t : String) : (s ++ t).data = s.data ++ t.data := rfl

theorem pyLower_append (s t : String) : pyLower (s ++ t) = pyLower s ++ pyLower t := by
  apply String.ext
  simp [pyLower, str_data_append]

theorem pyEndsWith_append (s t : String) : pyEndsWith (s ++ t) t = true := by
  simp only [pyEndsWith, str_data_append, decide_eq_true_eq]
  exact List.suffix_append _ _

/-- Any value of `fixSuggestedName` lowercases to a `.pdf`-suffixed name. -/
theorem fixSuggestedName_lower_pdf (o : Option String) :
    pyEndsWith (pyLower (fixSuggestedName o)) ".pdf" = true := by
  unfold fixSuggestedName
  by_cases h :
      pyEndsWith
        (pyLower (match o with
          | none => "downloaded_doc.pdf"
          | some s => if s = "" then "downloaded_doc.pdf" else s)) ".pdf" = true
  · simp [h]
  · simp only [h, if_false, Bool.false_eq_true]
    rw [pyLower_append]
    have hpdf : pyLower ".pdf" = ".pdf" := by decide
    rw [hpdf]
    exact pyEndsWith_append _ _

/-- When the suggested name is truthy but its lowercase lacks the `.pdf`
suffix, the extension is appended. -/
theorem fixSuggestedName_appends (t : String) (hne : t ≠ "")
    (hlacks : pyEndsWith (pyLower t) ".pdf" = false) :
    fixSuggestedName (some t) = t ++ ".pdf" := by
  unfold fixSuggestedName
  simp [hne, hlacks]

/-- Every attempt either succeeds with the assembled payload, writing it
once, or fails leaving the handoff state untouched. -/
theorem runAttempt_cases (url : String) (env : AttemptEnv) (fs : HandoffFS) :
    runAttempt url env fs =
      (.ok (attemptPayload url env),
       { content := some (attemptPayload url env), writes := fs.writes + 1 }) ∨
    ∃ e, runAttempt url env fs = (.error e, fs) := by
  unfold runAttempt
  split
  · exact Or.inr ⟨_, rfl⟩
  · split
    · exact Or.inr ⟨_, rfl⟩
    · split
      · exact Or.inr ⟨_, rfl⟩
      · exact Or.inl rfl

/-! ## C5 -/

/-- C5 counterexample: the check `suggested.lower().endswith(".pdf")` is
case-insensitive, so the suggested name `"report.PDF"` is persisted
unchanged and does not literally end in `".pdf"`. -/
theorem C5_counterexample :
    fixSuggestedName (some "report.PDF") = "report.PDF" ∧
    pyEndsWith "report.PDF" ".pdf" = false := by decide

/-- C5 (amended): for every successful attempt, the persisted file name is
the extension-normalised suggested name, its lowercase form ends in
`.pdf`, and whenever the (truthy) suggested name's lowercase lacks the
`.pdf` suffix the extension is appended before saving. -/
theorem C5_persisted_name_extension (url : String) (env : AttemptEnv)
    (fs : HandoffFS) (p : HandoffPayload)
    (hp : (runAttempt url env fs).1 = .ok p) :
    p.file_name = fixSuggestedName env.suggestedFilename ∧
    pyEndsWith (pyLower p.file_name) ".pdf" = true ∧
    ∀ t, env.suggestedFilename = some t → t ≠ "" →
      pyEndsWith (pyLower t) ".pdf" = false → p.file_name = t ++ ".pdf" := by
  rcases runAttempt_cases url env fs with hcase | ⟨e, hcase⟩
  · rw [hcase] at hp
    simp only [Except.ok.injEq] at hp
    subst hp
    refine ⟨rfl, fixSuggestedName_lower_pdf _, ?_⟩
    intro t ht hne hlacks
    show fixSuggestedName env.suggestedFilename = t ++ ".pdf"
    rw [ht]
    exact fixSuggestedName_appends t hne hlacks
  · rw [hcase] at hp
    simp at hp

/-- C5 witness: a successful attempt whose suggested name `"doc"` lacks the
extension persists `"doc.pdf"`. -/
theorem C5_witness :
    (runAttempt "https://drive.google.com/file" sampleSuccessEnv
        { content := none, writes := 0 }).1 =
      .ok (attemptPayload "https://drive.google.com/file" sampleSuccessEnv) ∧
    (attemptPayload "https://drive.google.com/file" sampleSuccessEnv).file_name =
      "doc" ++ ".pdf" := by
  have hp : (runAttempt "https://drive.google.com/file" sampleSuccessEnv
      { content := none, writes := 0 }).1 =
      .ok (attemptPayload "https://drive.google.com/file" sampleSuccessEnv) := rfl
  exact ⟨hp,
    (C5_persisted_name_extension "https://drive.google.com/file" sampleSuccessEnv
        { content := none, writes := 0 }
        (attemptPayload "https://drive.google.com/file" sampleSuccessEnv) hp).2.2
      "doc" rfl (by decide) (by decide)⟩

/-! ## C10 -/

/-- C10: when the primary oracle channel raises and the secondary channel
also raises, `_call_gpt5_mini_plan` propagates the secondary channel's
exception instead of returning the fallback plan; coercion to the fallback
applies only once a response text was obtained. -/
theorem C10_secondary_exception_propagates (env : OracleEnv) (e₁ e₂ : String)
    (h₁ : env.primary = .error e₁) (h₂ : env.secondary = .error e₂) :
    call_gpt5_mini_plan env = .error e₂ := by
  simp [call_gpt5_mini_plan, obtainedText, h₁, h₂]

/-- C10 witness: both channels raising propagates the second exception. -/
theorem C10_witness :
    call_gpt5_mini_plan
        { primary := .error "responses API down"
          secondary := .error "chat completions down"
          loads := fun _ => none } =
      .error "chat completions down" :=
  C10_secondary_exception_propagates _ "responses API down" "chat completions down" rfl rfl

/-! ## C2 -/

/-- C2: whenever a response text was obtained but fails to decode, or
decodes to anything whose `action` is not one of the five allowed actions,
the adapter returns (never raises) the fallback plan, whose action is
`REFRESH_AND_RETRY_SELECTORS`, with one of the two fallback rationales. -/
theorem C2_oracle_contract_coercion (env : OracleEnv) (text : String)
    (htext : obtainedText env = .ok text)
    (hbad : oracleViolation (env.loads text) = true) :
    ∃ r, call_gpt5_mini_plan env = .ok (fallbackPlan r) ∧
      (r = "Non-JSON output; fallback." ∨ r = "Invalid action from model; fallback.") ∧
      planActionOf (fallbackPlan r) = some "REFRESH_AND_RETRY_SELECTORS" := by
  have hcall : call_gpt5_mini_plan env = .ok (decodePlanText env text) := by
    simp [call_gpt5_mini_plan, htext]
  rcases hload : env.loads text with _ | j
  · refine ⟨"Non-JSON output; fallback.", ?_, Or.inl rfl, rfl⟩
    rw [hcall]
    simp [decodePlanText, hload]
  · rw [hload] at hbad
    simp only [oracleViolation, Bool.not_eq_true'] at hbad
    cases j with
    | obj fields =>
      refine ⟨"Invalid action from model; fallback.", ?_, Or.inr rfl, rfl⟩
      rw [hcall]
      rcases hget : pyDictGet fields "action" with _ | v
      · simp [decodePlanText, hload, hget]
      · cases v with
        | str a =>
          have hnotin : a ∉ allowed_actions := by
            simpa [planActionOk, hget] using hbad
          simp [decodePlanText, hload, hget, hnotin]
        | null => simp [decodePlanText, hload, hget]
        | bool b => simp [decodePlanText, hload, hget]
        | num n => simp [decodePlanText, hload, hget]
        | arr elems => simp [decodePlanText, hload, hget]
        | obj inner => simp [decodePlanText, hload, hget]
    | null =>
      exact ⟨"Non-JSON output; fallback.",
        by rw [hcall]; simp [decodePlanText, hload], Or.inl rfl, rfl⟩
    | bool b =>
      exact ⟨"Non-JSON output; fallback.",
        by rw [hcall]; simp [decodePlanText, hload], Or.inl rfl, rfl⟩
    | num n =>
      exact ⟨"Non-JSON output; fallback.",
        by rw [hcall]; simp [decodePlanText, hload], Or.inl rfl, rfl⟩
    | str s =>
      exact ⟨"Non-JSON output; fallback.",
        by rw [hcall]; simp [decodePlanText, hload], Or.inl rfl, rfl⟩
    | arr elems =>
      exact ⟨"Non-JSON output; fallback.",
        by rw [hcall]; simp [decodePlanText, hload], Or.inl rfl, rfl⟩

/-- C2 witness: a response that is not JSON at all is coerced to the
fallback plan. -/
theorem C2_witness :
    ∃ r, call_gpt5_mini_plan
        { primary := .ok "sure, click the download button!"
          secondary := .error "unused"
          loads := fun _ => none } = .ok (fallbackPlan r) ∧
      (r = "Non-JSON output; fallback." ∨ r = "Invalid action from model; fallback.") ∧
      planActionOf (fallbackPlan r) = some "REFRESH_AND_RETRY_SELECTORS" :=
  C2_oracle_contract_coercion _ "sure, click the download button!" rfl rfl

/-! ## C1 -/

/-- C1: `DownloadAgent.run` called with `max_seconds = 5` while one awaited
interaction step stalls for 10 seconds — elapsed time exceeds the maximum,
the Time Guard polls and raises inside its own task (`guardRaised`), but
the exception is never delivered (the task is never awaited), so the
attempt is not preempted and runs to completion contrary to the claim. -/
theorem C1_guard_fires_but_never_preempts :
    (timeGuardRun 5 [10]).guardRaised = true ∧
    (timeGuardRun 5 [10]).mainPreempted = false ∧
    (timeGuardRun 5 [10]).mainRemaining = [] := by decide

/-! ## C9 -/

/-- C9: the phase-2 handoff consumption in `main` checks only that the
handoff file exists and hands the parsed record straight to indexing; a
record missing `sha256` (with the earlier required fields present) is
indexed there, while `QueryAgent.load_handoff` — never invoked on this
path — would reject the same record with the named missing-field error. -/
theorem C9_phase2_skips_validation (env : Phase2Env) (fsenv : FsEnv)
    (hex : env.handoffFileExists = true)
    (hfs : fsenv.handoffFileExists = true)
    (hfp : (pyDictGet env.parsed "file_path").isSome = true)
    (hfn : (pyDictGet env.parsed "file_name").isSome = true)
    (hsu : (pyDictGet env.parsed "source_url").isSome = true)
    (hsha : pyDictGet env.parsed "sha256" = none) :
    main_phase2 env = .indexed env.parsed ∧
    load_handoff fsenv env.parsed = .error (.missingField "sha256") := by
  constructor
  · rcases Option.isSome_iff_exists.mp hfp with ⟨v, hv⟩
    simp [main_phase2, hex, hv]
  · have h1 : (pyDictGet env.parsed "file_path").isNone = false := by
      rcases Option.isSome_iff_exists.mp hfp with ⟨v, hv⟩
      simp [hv]
    have h2 : (pyDictGet env.parsed "file_name").isNone = false := by
      rcases Option.isSome_iff_exists.mp hfn with ⟨v, hv⟩
      simp [hv]
    have h3 : (pyDictGet env.parsed "source_url").isNone = false := by
      rcases Option.isSome_iff_exists.mp hsu with ⟨v, hv⟩
      simp [hv]
    have h4 : (pyDictGet env.parsed "sha256").isNone = true := by simp [hsha]
    have hfind : findMissingField env.parsed = some "sha256" := by
      simp [findMissingField, requiredHandoffFields, List.find?, h1, h2, h3, h4]
    simp [load_handoff, hfs, hfind]

/-- C9 witness: a concrete record missing only `sha256` is indexed by the
CLI phase-2 path yet rejected by `load_handoff`. -/
theorem C9_witness :
    main_phase2
        { handoffFileExists := true
          parsed := [("file_path", .str "/work/sandbox/downloads/doc.pdf"),
                     ("file_name", .str "doc.pdf"),
                     ("source_url", .str "https://drive.google.com/file"),
                     ("bytes", .num 3),
                     ("downloaded_at_iso", .str "2026-01-01T00:00:00+00:00")] } =
      .indexed [("file_path", .str "/work/sandbox/downloads/doc.pdf"),
                ("file_name", .str "doc.pdf"),
                ("source_url", .str "https://drive.google.com/file"),
                ("bytes", .num 3),
                ("downloaded_at_iso", .str "2026-01-01T00:00:00+00:00")] ∧
    load_handoff { handoffFileExists := true, pathExists := fun _ => true }
        [("file_path", .str "/work/sandbox/downloads/doc.pdf"),
         ("file_name", .str "doc.pdf"),
         ("source_url", .str "https://drive.google.com/file"),
         ("bytes", .num 3),
         ("downloaded_at_iso", .str "2026-01-01T00:00:00+00:00")] =
      .error (.missingField "sha256") :=
  C9_phase2_skips_validation _ _ rfl rfl rfl rfl rfl rfl

/-! ## C3 -/

/-- The three possible shapes of a retried run: success at attempt 1, 2 or
3 — or exhaustion at attempt 3 with the third outcome returned as is. -/
theorem retryEnvelope_cases {E A : Type} (f : Nat → Except E A) :
    (∃ a, f 1 = .ok a ∧ retryEnvelope f = (.ok a, 1, [])) ∨
    (∃ e a, f 1 = .error e ∧ f 2 = .ok a ∧ retryEnvelope f = (.ok a, 2, [2])) ∨
    (∃ e₁ e₂, f 1 = .error e₁ ∧ f 2 = .error e₂ ∧
      retryEnvelope f = (f 3, 3, [2, 4])) := by
  have w1 : waitExponential 1 2 10 1 = 2 := by decide
  have w2 : waitExponential 1 2 10 2 = 4 := by decide
  rcases h1 : f 1 with e₁ | a₁
  · rcases h2 : f 2 with e₂ | a₂
    · refine Or.inr (Or.inr ⟨e₁, e₂, rfl, rfl, ?_⟩)
      rcases h3 : f 3 with e₃ | a₃ <;>
        simp [retryEnvelope, runWithRetries, h1, h2, h3, w1, w2]
    · refine Or.inr (Or.inl ⟨e₁, a₂, rfl, rfl, ?_⟩)
      simp [retryEnvelope, runWithRetries, h1, h2, w1, w2]
  · exact Or.inl ⟨a₁, rfl, by simp [retryEnvelope, runWithRetries, h1]⟩

/-- C3: the Retry/Backoff Controller makes at most 3 attempts, every
inter-attempt wait lies in `[2, 10]`, the wait sequence is the
non-decreasing doubling prefix of `[2, 4]`, the final outcome is exactly
the last attempt's own outcome, and when all three attempts fail the third
attempt's exception is re-raised unchanged. -/
theorem C3_retry_envelope {E A : Type} (f : Nat → Except E A) :
    (retryEnvelope f).2.1 ≤ 3 ∧
    (retryEnvelope f).2.2 = List.take ((retryEnvelope f).2.1 - 1) [2, 4] ∧
    (∀ w ∈ (retryEnvelope f).2.2, 2 ≤ w ∧ w ≤ 10) ∧
    List.Pairwise (· ≤ ·) (retryEnvelope f).2.2 ∧
    (retryEnvelope f).1 = f (retryEnvelope f).2.1 ∧
    (∀ e₁ e₂ e₃, f 1 = .error e₁ → f 2 = .error e₂ → f 3 = .error e₃ →
      retryEnvelope f = (.error e₃, 3, [2, 4])) := by
  rcases retryEnvelope_cases f with ⟨a, hf, henv⟩ | ⟨e, a, hf1, hf2, henv⟩ |
    ⟨e₁, e₂, hf1, hf2, henv⟩
  · have h1 : (retryEnvelope f).2.1 = 1 := by rw [henv]
    have h2 : (retryEnvelope f).2.2 = [] := by rw [henv]
    have h3 : (retryEnvelope f).1 = .ok a := by rw [henv]
    refine ⟨by omega, by rw [h2, h1]; decide, ?_, ?_, by rw [h3, h1, hf], ?_⟩
    · intro w hw
      rw [h2] at hw
      simp at hw
    · rw [h2]
      exact List.Pairwise.nil
    · intro e₁' e₂' e₃' h1' h2' h3'
      rw [hf] at h1'
      exact absurd h1' (by simp)
  · have h1 : (retryEnvelope f).2.1 = 2 := by rw [henv]
    have h2 : (retryEnvelope f).2.2 = [2] := by rw [henv]
    have h3 : (retryEnvelope f).1 = .ok a := by rw [henv]
    refine ⟨by omega, by rw [h2, h1]; decide, ?_, ?_, by rw [h3, h1, hf2], ?_⟩
    · intro w hw
      rw [h2] at hw
      simp at hw
      omega
    · rw [h2]
      simp
    · intro e₁' e₂' e₃' h1' h2' h3'
      rw [hf2] at h2'
      exact absurd h2' (by simp)
  · have h1 : (retryEnvelope f).2.1 = 3 := by rw [henv]
    have h2 : (retryEnvelope f).2.2 = [2, 4] := by rw [henv]
    have h3 : (retryEnvelope f).1 = f 3 := by rw [henv]
    refine ⟨by omega, by rw [h2, h1]; decide, ?_, ?_, by rw [h3, h1], ?_⟩
    · intro w hw
      rw [h2] at hw
      simp at hw
      rcases hw with hw | hw <;> omega
    · rw [h2]
      simp
    · intro e₁' e₂' e₃' h1' h2' h3'
      rw [henv, h3']

/-- C3 witness: with every attempt failing, the envelope stops at attempt 3,
waits 2 then 4 seconds, and re-raises the final `"boom"`. -/
theorem C3_witness :
    (retryEnvelope (fun _ => (Except.error "boom" : Except String Nat))).2.1 ≤ 3 ∧
    retryEnvelope (fun _ => (Except.error "boom" : Except String Nat)) =
      (.error "boom", 3, [2, 4]) :=
  ⟨(C3_retry_envelope (fun _ => (Except.error "boom" : Except String Nat))).1,
   (C3_retry_envelope (fun _ => (Except.error "boom" : Except String Nat))).2.2.2.2.2
     "boom" "boom" "boom" rfl rfl rfl⟩

/-! ## C7 -/

/-- The retried run, at any fuel and starting attempt: a failure leaves the
handoff state untouched; a success hands back the payload just written,
with exactly one additional write and status `"success"`. -/
theorem runAgentAux_spec (url : String) (envs : Nat → AttemptEnv) (fuel : Nat) :
    ∀ (n : Nat) (fs : HandoffFS),
      (∀ e, (runAgentAux url envs fuel n fs).1 = .error e →
        (runAgentAux url envs fuel n fs).2 = fs) ∧
      (∀ p, (runAgentAux url envs fuel n fs).1 = .ok p →
        (runAgentAux url envs fuel n fs).2 =
          { content := some p, writes := fs.writes + 1 } ∧
        p.status = "success") := by
  induction fuel with
  | zero =>
    intro n fs
    rcases runAttempt_cases url (envs n) fs with hcase | ⟨e₀, hcase⟩
    · have hrun : runAgentAux url envs 0 n fs =
          (.ok (attemptPayload url (envs n)),
           { content := some (attemptPayload url (envs n)), writes := fs.writes + 1 }) := by
        simp [runAgentAux, hcase]
      constructor
      · intro e he
        rw [hrun] at he
        simp at he
      · intro p hp
        rw [hrun] at hp ⊢
        simp only [Except.ok.injEq] at hp
        subst hp
        exact ⟨rfl, rfl⟩
    · have hrun : runAgentAux url envs 0 n fs = (.error e₀, fs) := by
        simp [runAgentAux, hcase]
      constructor
      · intro e _
        rw [hrun]
      · intro p hp
        rw [hrun] at hp
        simp at hp
  | succ fuel ih =>
    intro n fs
    rcases runAttempt_cases url (envs n) fs with hcase | ⟨e₀, hcase⟩
    · have hrun : runAgentAux url envs (fuel + 1) n fs =
          (.ok (attemptPayload url (envs n)),
           { content := some (attemptPayload url (envs n)), writes := fs.writes + 1 }) := by
        simp [runAgentAux, hcase]
      constructor
      · intro e he
        rw [hrun] at he
        simp at he
      · intro p hp
        rw [hrun] at hp ⊢
        simp only [Except.ok.injEq] at hp
        subst hp
        exact ⟨rfl, rfl⟩
    · have hrun : runAgentAux url envs (fuel + 1) n fs =
          runAgentAux url envs fuel (n + 1) fs := by
        simp [runAgentAux, hcase]
      rw [hrun]
      exact ih (n + 1) fs

/-- C7: a handoff record is written if and only if the retried run
succeeds — every failed run (give-up, retry exhaustion, any error) leaves
the handoff state unchanged, and a successful run performs exactly one
write, of a record with status `"success"`. -/
theorem C7_handoff_written_iff_success (url : String) (envs : Nat → AttemptEnv)
    (fs : HandoffFS) :
    (∀ e, (runAgent url envs fs).1 = .error e → (runAgent url envs fs).2 = fs) ∧
    (∀ p, (runAgent url envs fs).1 = .ok p →
      (runAgent url envs fs).2 = { content := some p, writes := fs.writes + 1 } ∧
      p.status = "success") := by
  unfold runAgent
  exact runAgentAux_spec url envs 2 1 fs

/-- C7 witness: an oracle that always selects `FAIL_GIVE_UP` exhausts the
three attempts and the run ends in an error with the handoff location
untouched. -/
theorem C7_witness :
    (runAgent "https://drive.google.com/file" sampleGiveUpEnvs
        { content := none, writes := 0 }).1 = .error "Planner chose FAIL_GIVE_UP." ∧
    (runAgent "https://drive.google.com/file" sampleGiveUpEnvs
        { content := none, writes := 0 }).2 = { content := none, writes := 0 } := by
  have h : (runAgent "https://drive.google.com/file" sampleGiveUpEnvs
      { content := none, writes := 0 }).1 = .error "Planner chose FAIL_GIVE_UP." := rfl
  exact ⟨h,
    (C7_handoff_written_iff_success "https://drive.google.com/file" sampleGiveUpEnvs
        { content := none, writes := 0 }).1 _ h⟩

/-! ## C8 -/

/-- C8: `load_handoff` rejects a record missing any of the six required
fields with an error naming a missing field, rejects a record whose
`file_path` is falsy or not an existing file, and accepts a record passing
both checks, returning it unchanged. -/
theorem C8_load_handoff_validation (env : FsEnv) (data : List (String × Json))
    (hex : env.handoffFileExists = true) :
    ((∃ k ∈ requiredHandoffFields, pyDictGet data k = none) →
      ∃ k, load_handoff env data = .error (.missingField k) ∧
        k ∈ requiredHandoffFields ∧ pyDictGet data k = none) ∧
    (findMissingField data = none →
      (pyTruthy ((pyDictGet data "file_path").getD .null) = false ∨
       env.pathExists ((pyDictGet data "file_path").getD .null) = false) →
      load_handoff env data = .error (.invalidFilePath "Invalid file_path in handoff.json")) ∧
    (findMissingField data = none →
      pyTruthy ((pyDictGet data "file_path").getD .null) = true →
      env.pathExists ((pyDictGet data "file_path").getD .null) = true →
      load_handoff env data = .ok data) := by
  refine ⟨?_, ?_, ?_⟩
  · rintro ⟨k, hk, hnone⟩
    have hsome : (findMissingField data).isSome := by
      rw [findMissingField, List.find?_isSome]
      exact ⟨k, hk, by simp [hnone]⟩
    rcases Option.isSome_iff_exists.mp hsome with ⟨k', hk'⟩
    refine ⟨k', ?_, List.mem_of_find?_eq_some hk', ?_⟩
    · simp [load_handoff, hex, hk']
    · have hpred := List.find?_some hk'
      simpa using hpred
  · intro hnone hbad
    rcases hbad with hbad | hbad <;> simp [load_handoff, hex, hnone, hbad]
  · intro hnone htruthy hexists
    simp [load_handoff, hex, hnone, htruthy, hexists]

/-- C8 witness: a record missing `sha256` is rejected with the named
missing-field error. -/
theorem C8_witness :
    ∃ k, load_handoff { handoffFileExists := true, pathExists := fun _ => true }
        sampleRecordNoSha = .error (.missingField k) ∧
      k ∈ requiredHandoffFields ∧ pyDictGet sampleRecordNoSha k = none :=
  (C8_load_handoff_validation
      { handoffFileExists := true, pathExists := fun _ => true }
      sampleRecordNoSha rfl).1 ⟨"sha256", by decide, rfl⟩

/-! ## C4 -/

/-- Whatever `dedupFirstSeenAux` keeps came from its input and was not yet
seen. -/
theorem mem_dedupFirstSeenAux :
    ∀ (l seen : List String) (y : String),
      y ∈ dedupFirstSeenAux seen l → y ∈ l ∧ y ∉ seen := by
  intro l
  induction l with
  | nil =>
    intro seen y hy
    simp [dedupFirstSeenAux] at hy
  | cons x xs ih =>
    intro seen y hy
    simp only [dedupFirstSeenAux] at hy
    by_cases hx : x ∈ seen
    · rw [if_pos hx] at hy
      rcases ih seen y hy with ⟨h1, h2⟩
      exact ⟨List.mem_cons_of_mem _ h1, h2⟩
    · rw [if_neg hx] at hy
      rcases List.mem_cons.mp hy with rfl | hy'
      · exact ⟨List.mem_cons_self _ _, hx⟩
      · rcases ih (x :: seen) y hy' with ⟨h1, h2⟩
        exact ⟨List.mem_cons_of_mem _ h1, fun hmem => h2 (List.mem_cons_of_mem _ hmem)⟩

/-- `dedupFirstSeenAux` never repeats an element. -/
theorem nodup_dedupFirstSeenAux :
    ∀ (l seen : List String), (dedupFirstSeenAux seen l).Nodup := by
  intro l
  induction l with
  | nil =>
    intro seen
    simp [dedupFirstSeenAux]
  | cons x xs ih =>
    intro seen
    simp only [dedupFirstSeenAux]
    by_cases hx : x ∈ seen
    · rw [if_pos hx]
      exact ih seen
    · rw [if_neg hx]
      refine List.nodup_cons.mpr ⟨?_, ih (x :: seen)⟩
      intro hmem
      exact (mem_dedupFirstSeenAux xs (x :: seen) x hmem).2 (List.mem_cons_self _ _)

/-- `dedupFirstSeenAux` lists elements in strictly increasing order of
their first occurrence in the input. -/
theorem pairwise_indexOf_dedupFirstSeenAux :
    ∀ (l seen : List String),
      List.Pairwise (fun a b => l.indexOf a < l.indexOf b) (dedupFirstSeenAux seen l) := by
  intro l
  induction l with
  | nil =>
    intro seen
    simp [dedupFirstSeenAux]
  | cons x xs ih =>
    intro seen
    simp only [dedupFirstSeenAux]
    by_cases hx : x ∈ seen
    · rw [if_pos hx]
      refine (ih seen).imp_of_mem ?_
      intro a b ha hb hab
      have hax : x ≠ a := by
        intro he
        exact (mem_dedupFirstSeenAux xs seen a ha).2 (he ▸ hx)
      have hbx : x ≠ b := by
        intro he
        exact (mem_dedupFirstSeenAux xs seen b hb).2 (he ▸ hx)
      rw [List.indexOf_cons_ne _ hax, List.indexOf_cons_ne _ hbx]
      exact Nat.succ_lt_succ hab
    · rw [if_neg hx]
      refine List.pairwise_cons.mpr ⟨?_, ?_⟩
      · intro y hy
        have hyx : x ≠ y := by
          intro he
          exact (mem_dedupFirstSeenAux xs (x :: seen) y hy).2 (he ▸ List.mem_cons_self _ _)
        rw [List.indexOf_cons_self, List.indexOf_cons_ne _ hyx]
        exact Nat.succ_pos _
      · refine (ih (x :: seen)).imp_of_mem ?_
        intro a b ha hb hab
        have hax : x ≠ a := by
          intro he
          exact (mem_dedupFirstSeenAux xs (x :: seen) a ha).2 (he ▸ List.mem_cons_self _ _)
        have hbx : x ≠ b := by
          intro he
          exact (mem_dedupFirstSeenAux xs (x :: seen) b hb).2 (he ▸ List.mem_cons_self _ _)
        rw [List.indexOf_cons_ne _ hax, List.indexOf_cons_ne _ hbx]
        exact Nat.succ_lt_succ hab

theorem pySlice_length_le (s : String) (n : Nat) : (pySlice s n).length ≤ n := by
  show (s.data.take n).length ≤ n
  exact List.length_take_le _ _

/-- Every label the scan loop appends is a whitespace-collapsed candidate
truncated to 80 characters. -/
theorem elementLabel_shape (el : PageElement) (l : String)
    (h : elementLabel el = some l) :
    l.length ≤ 80 ∧ ∃ raw, l = pySlice (pyCollapseWs raw) 80 := by
  simp only [elementLabel] at h
  split at h
  · simp at h
  · split at h
    · simp at h
    · split at h
      · rw [Option.some.injEq] at h
        subst h
        exact ⟨pySlice_length_le _ _, _, rfl⟩
      · simp at h
        obtain ⟨-, h⟩ := h
        subst h
        exact ⟨pySlice_length_le _ _, _, rfl⟩

/-- C4 counterexample: a scan yielding 26 qualifying labels that are all
equal returns a single label, not 25 — the cap applies after
deduplication. -/
theorem C4_counterexample :
    25 < (qualifyingLabels sampleDupElements).length ∧
    (collectButtonTexts sampleDupElements).length ≠ 25 := by decide

/-- C4 (amended): whenever the scan yields more than 25 distinct qualifying
labels, the extractor returns exactly 25 — pairwise distinct, in
first-seen order of the qualifying scan, each drawn from the first 40
candidate elements and each a whitespace-collapsed candidate truncated to
at most 80 characters. -/
theorem C4_extractor_bounded (elements : List PageElement)
    (h : 25 < (dedupFirstSeen (qualifyingLabels elements)).length) :
    (collectButtonTexts elements).length = 25 ∧
    (collectButtonTexts elements).Nodup ∧
    List.Pairwise
      (fun a b => (qualifyingLabels elements).indexOf a < (qualifyingLabels elements).indexOf b)
      (collectButtonTexts elements) ∧
    ∀ l ∈ collectButtonTexts elements,
      (∃ el ∈ elements.take 40, elementLabel el = some l) ∧
      l.length ≤ 80 ∧ ∃ raw, l = pySlice (pyCollapseWs raw) 80 := by
  refine ⟨?_, ?_, ?_, ?_⟩
  · rw [collectButtonTexts, List.length_take]
    omega
  · exact (nodup_dedupFirstSeenAux _ []).sublist (List.take_sublist _ _)
  · exact (pairwise_indexOf_dedupFirstSeenAux _ []).sublist (List.take_sublist _ _)
  · intro l hl
    have hmem : l ∈ dedupFirstSeen (qualifyingLabels elements) :=
      (List.take_sublist _ _).subset hl
    have hq : l ∈ qualifyingLabels elements :=
      (mem_dedupFirstSeenAux _ [] l hmem).1
    rcases List.mem_filterMap.mp hq with ⟨el, hel, hlab⟩
    rcases elementLabel_shape el l hlab with ⟨hlen, raw, hraw⟩
    exact ⟨⟨el, hel, hlab⟩, hlen, raw, hraw⟩

/-- C4 witness: 26 distinct qualifying labels are capped to exactly 25. -/
theorem C4_witness :
    25 < (dedupFirstSeen (qualifyingLabels sampleDistinctElements)).length ∧
    (collectButtonTexts sampleDistinctElements).length = 25 :=
  ⟨by decide, (C4_extractor_bounded sampleDistinctElements (by decide)).1⟩

/-! ## C6 -/

theorem processBlocksAux_small (fuel : Nat) (h data : List Nat)
    (hlen : ¬ 64 ≤ data.length) : processBlocksAux fuel h data = (h, data) := by
  cases fuel with
  | zero => rfl
  | succ fuel => simp [processBlocksAux, hlen]

/-- Any two sufficient fuels absorb the same blocks. -/
theorem processBlocksAux_congr :
    ∀ (f₁ f₂ : Nat) (h data : List Nat), data.length ≤ f₁ → data.length ≤ f₂ →
      processBlocksAux f₁ h data = processBlocksAux f₂ h data := by
  intro f₁
  induction f₁ with
  | zero =>
    intro f₂ h data h1 _
    have hdata : data = [] := List.eq_nil_of_length_eq_zero (by omega)
    subst hdata
    rw [processBlocksAux_small 0 h [] (by simp),
      processBlocksAux_small f₂ h [] (by simp)]
  | succ f₁ ih =>
    intro f₂ h data h1 h2
    by_cases h64 : 64 ≤ data.length
    · obtain ⟨k₂, hk₂⟩ : ∃ k, f₂ = k + 1 := ⟨f₂ - 1, by omega⟩
      subst hk₂
      simp only [processBlocksAux, if_pos h64]
      exact ih k₂ _ _ (by simp only [List.length_drop]; omega)
        (by simp only [List.length_drop]; omega)
    · rw [processBlocksAux_small _ _ _ h64, processBlocksAux_small _ _ _ h64]

/-- `processBlocks` on fewer than 64 bytes absorbs nothing. -/
theorem processBlocks_small (h data : List Nat) (h64 : ¬ 64 ≤ data.length) :
    processBlocks h data = (h, data) :=
  processBlocksAux_small _ _ _ h64

/-- `processBlocks` on at least 64 bytes first compresses one block. -/
theorem processBlocks_step (h data : List Nat) (h64 : 64 ≤ data.length) :
    processBlocks h data =
      processBlocks (compress h (bytesToWords (data.take 64))) (data.drop 64) := by
  unfold processBlocks
  obtain ⟨k, hk⟩ : ∃ k, data.length = k + 1 := ⟨data.length - 1, by omega⟩
  rw [hk]
  simp only [processBlocksAux, if_pos h64]
  exact processBlocksAux_congr k _ _ _
    (by simp only [List.length_drop]; omega) le_rfl

/-- The unabsorbed remainder is always shorter than one block. -/
theorem processBlocks_snd_lt (h data : List Nat) :
    (processBlocks h data).2.length < 64 := by
  have key : ∀ (n : Nat) (h data : List Nat), data.length ≤ n →
      (processBlocks h data).2.length < 64 := by
    intro n
    induction n using Nat.strong_induction_on with
    | _ n ih =>
      intro h data hn
      by_cases h64 : 64 ≤ data.length
      · rw [processBlocks_step h data h64]
        exact ih (n - 1) (by omega) _ _ (by simp only [List.length_drop]; omega)
      · rw [processBlocks_small h data h64]
        show data.length < 64
        omega
  exact key data.length h data le_rfl

/-- Absorbing a concatenation equals absorbing the first part, then the
remainder together with the second part — the Merkle–Damgård streaming
law behind `update`. -/
theorem processBlocks_append (a b h : List Nat) :
    processBlocks h (a ++ b) =
      processBlocks (processBlocks h a).1 ((processBlocks h a).2 ++ b) := by
  have key : ∀ (n : Nat) (a h : List Nat), a.length ≤ n →
      processBlocks h (a ++ b) =
        processBlocks (processBlocks h a).1 ((processBlocks h a).2 ++ b) := by
    intro n
    induction n using Nat.strong_induction_on with
    | _ n ih =>
      intro a h hn
      by_cases h64 : 64 ≤ a.length
      · have h64ab : 64 ≤ (a ++ b).length := by
          simp only [List.length_append]
          omega
        rw [processBlocks_step h (a ++ b) h64ab, processBlocks_step h a h64,
          List.take_append_of_le_length h64, List.drop_append_of_le_length h64]
        exact ih (n - 1) (by omega) _ _ (by simp only [List.length_drop]; omega)
      · rw [processBlocks_small h a h64]
  exact key a.length a h le_rfl

/-- The incremental context after absorbing a chunk list equals one
absorption of the concatenated bytes. -/
theorem foldl_shaUpdate (cs : List (List Nat)) :
    ∀ (h buf : List Nat) (len : Nat), buf.length < 64 →
      List.foldl shaUpdate ⟨h, buf, len⟩ cs =
        ⟨(processBlocks h (buf ++ cs.flatten)).1, (processBlocks h (buf ++ cs.flatten)).2,
         len + cs.flatten.length⟩ := by
  induction cs with
  | nil =>
    intro h buf len hb
    simp only [List.foldl_nil, List.flatten_nil, List.append_nil, List.length_nil,
      Nat.add_zero]
    rw [processBlocks_small h buf (by omega)]
  | cons c cs ih =>
    intro h buf len hb
    simp only [List.foldl_cons, shaUpdate]
    rw [ih _ _ _ (processBlocks_snd_lt h (buf ++ c))]
    have happ := processBlocks_append (buf ++ c) cs.flatten h
    simp only [List.flatten_cons, ← List.append_assoc, happ, List.length_append,
      Nat.add_assoc]

/-- Streaming any chunking of a byte string yields the one-shot digest. -/
theorem shaStream_eq_sha256Hex (css : List (List Nat)) :
    shaStream css = sha256Hex css.flatten := by
  unfold shaStream shaInit shaHexdigest sha256Hex padMessage
  rw [foldl_shaUpdate css shaH0 [] 0 (by simp)]
  simp only [List.nil_append, Nat.zero_add]
  rw [processBlocks_append css.flatten (padTail css.flatten.length) shaH0]

theorem join_chunkListAux {α : Type} (n : Nat) (hn : n ≠ 0) :
    ∀ (fuel : Nat) (l : List α), l.length ≤ fuel →
      (chunkListAux n fuel l).flatten = l := by
  intro fuel
  induction fuel with
  | zero =>
    intro l hl
    have : l = [] := List.eq_nil_of_length_eq_zero (by omega)
    subst this
    rfl
  | succ fuel ih =>
    intro l hl
    cases l with
    | nil => rfl
    | cons x xs =>
      simp only [chunkListAux, if_neg hn, List.flatten_cons]
      rw [ih _ (by
        simp only [List.length_cons] at hl
        simp only [List.length_drop, List.length_cons]
        omega)]
      exact List.take_append_drop n (x :: xs)

theorem join_chunkList {α : Type} (n : Nat) (hn : n ≠ 0) (l : List α) :
    (chunkList n l).flatten = l :=
  join_chunkListAux n hn l.length l le_rfl

set_option maxRecDepth 100000 in
/-- Fidelity anchor: the embedded SHA-256 reproduces the NIST test vector
for the message `"abc"`. -/
theorem sha256Hex_abc :
    sha256Hex [97, 98, 99] =
      "ba7816bf8f01cfea414140de5dae2223b00361a396177a9cb410ff61f20015ad" := by
  decide

/-- C6: the file-hashing function is deterministic and
chunking-independent — the digest of the 1 MiB streaming loop equals the
reference one-shot SHA-256 of the whole contents, any chunking of the
contents streams to that same digest, and any two chunkings agree. -/
theorem C6_sha256_streaming (contents : List Nat) (css : List (List Nat))
    (hjoin : css.flatten = contents) :
    sha256_file contents = sha256Hex contents ∧
    shaStream css = sha256Hex contents ∧
    ∀ css₂, css₂.flatten = contents → shaStream css₂ = shaStream css := by
  have hfile : sha256_file contents = sha256Hex contents := by
    rw [sha256_file, shaStream_eq_sha256Hex,
      join_chunkList (1024 * 1024) (by omega) contents]
  have hstream : shaStream css = sha256Hex contents := by
    rw [shaStream_eq_sha256Hex, hjoin]
  refine ⟨hfile, hstream, ?_⟩
  intro css₂ hjoin₂
  rw [shaStream_eq_sha256Hex, hjoin₂, hstream]

/-- C6 witness: the bytes of `"abc"` chunked as `[97] ++ [98, 99]` stream to
the one-shot digest. -/
theorem C6_witness :
    [[97], [98, 99]].flatten = [97, 98, 99] ∧
    (sha256_file [97, 98, 99] = sha256Hex [97, 98, 99] ∧
     shaStream [[97], [98, 99]] = sha256Hex [97, 98, 99] ∧
     ∀ css₂, css₂.flatten = [97, 98, 99] → shaStream css₂ = shaStream [[97], [98, 99]]) :=
  ⟨rfl, C6_sha256_streaming [97, 98, 99] [[97], [98, 99]] rfl⟩

end Bravebird
